import Mathlib

/-!
Shallow embedding of the unimrcp PocketSphinx recognizer plugin
(`pocketsphinx_recognizer_t` and its request/audio state machine).

The channel state is `RecogState`; every protocol-visible side effect
(message send, decoder call, grammar-file write/remove, detector call)
is recorded in a trace of `Action`s.  Results of calls into external
collaborators (the PocketSphinx decoder, the activity detector, the
filesystem) are passed in as explicit environment values, except for the
decoder's utterance-active flag, which is modelled as channel state
because `ps_start_utt` / `ps_end_utt` bracket it.
-/

namespace PS

/-- MRCP recognizer method identifiers (the cases of the dispatch switch). -/
inductive MethodId where
  | setParams
  | getParams
  | defineGrammar
  | recognize
  | getResult
  | startInputTimers
  | stop
  | other
  deriving Repr, DecidableEq

/-- MRCP status codes used by the plugin: `MRCP_STATUS_CODE_SUCCESS`,
`MRCP_STATUS_CODE_MISSING_PARAM`, `MRCP_STATUS_CODE_UNSUPPORTED_PARAM_VALUE`
(the code the plugin answers an unsupported grammar content-type with) and
`MRCP_STATUS_CODE_METHOD_FAILED` (the engine-failure status). -/
inductive StatusCode where
  | success
  | missingParam
  | unsupportedParamValue
  | methodFailed
  deriving Repr, DecidableEq

/-- MRCP request states carried on a response start line. -/
inductive ReqState where
  | pending
  | inProgress
  | complete
  deriving Repr, DecidableEq

/-- Recognizer completion causes carried by RECOGNITION-COMPLETE. -/
inductive CompletionCause where
  | success
  | noMatch
  | noInputTimeout
  | recognitionTimeout
  deriving Repr, DecidableEq

/-- An incoming MRCP request, reduced to the fields the plugin reads:
method id, generic-header presence, content-id, content-type, whether a
content-length header (hence a body) is present, and the body text.
`reqId` stands for the request identity used to correlate the response. -/
structure Request where
  reqId : Nat
  method : MethodId
  hasGenericHeader : Bool
  contentId : Option String
  contentType : Option String
  hasContentLength : Bool
  body : String
  deriving Repr, DecidableEq

/-- A response message: the id of the request it answers, its status code
and its request state. -/
structure Response where
  reqId : Nat
  status : StatusCode
  reqState : ReqState
  deriving Repr, DecidableEq

/-- A RECOGNITION-COMPLETE event message as built by
`pocketsphinx_end_of_input` and possibly rewritten by
`pocketsphinx_recognition_complete`: the id of the RECOGNIZE request it
terminates, the completion cause, and the optional NLSML body with its
content type. -/
structure CompleteEvent where
  reqId : Nat
  cause : CompletionCause
  body : Option String
  contentType : Option String
  deriving Repr, DecidableEq

/-- A protocol message handed to `mrcp_engine_channel_message_send`. -/
inductive SentMsg where
  | resp (r : Response)
  | startOfInput (reqId : Nat)
  | recogComplete (e : CompleteEvent)
  deriving Repr, DecidableEq

/-- Observable side effects of the channel functions, in program order. -/
inductive Action where
  | send (m : SentMsg)
  | psStartUtt
  | psEndUtt
  | psProcessRaw
  | psGetHyp
  | detectorReset
  | detectorProcess
  | fileWrite (path : String)
  | fileRemove (path : String)
  deriving Repr, DecidableEq

/-- Events of `mpf_activity_detector_process`. -/
inductive DetEvent where
  | none
  | activity
  | inactivity
  | noinput
  deriving Repr, DecidableEq

/-- The `pocketsphinx_properties_t` timeout configuration. -/
structure Properties where
  noinput_timeout : Nat
  recognition_timeout : Nat
  partial_result_timeout : Nat
  deriving Repr, DecidableEq

/-- `pocketsphinx_properties_load`: the fixed values the plugin loads. -/
def defaultProperties : Properties :=
  { noinput_timeout := 5000
    recognition_timeout := 15000
    partial_result_timeout := 100 }

/-- Modelled from the spec: `CODEC_FRAME_TIME_BASE`, the fixed per-frame
duration (milliseconds) of the media-processing framework; its defining
header is not among the sources. -/
def CODEC_FRAME_TIME_BASE : Nat := 10

/-- The channel state of `pocketsphinx_recognizer_t`. `decoder` models a
non-NULL `ps_decoder_t` handle; `uttActive` models the decoder-internal
utterance-in-progress flag (PocketSphinx documents that `ps_start_utt`
fails while an utterance is already active and `ps_end_utt` ends it).
`detector` is the abstract accumulated state of the activity detector
(its implementation is an external collaborator); `detectorCreated`
records whether `mpf_activity_detector_create` has run. -/
structure RecogState where
  channelId : String
  decoder : Bool
  uttActive : Bool
  recognition_timeout : Nat
  partial_result_timeout : Nat
  last_result : Option String
  grammar_id : Option String
  grammar_table : List (String × String)
  detector : Nat
  detectorCreated : Bool
  complete_event : Option CompleteEvent
  inprogress_recog : Option Request
  stop_response : Option Response
  close_requested : Bool
  deriving Repr, DecidableEq

/-- The freshly created channel of `pocketsphinx_engine_recognizer_create`. -/
def initialState (channelId : String) : RecogState :=
  { channelId := channelId
    decoder := false
    uttActive := false
    recognition_timeout := 0
    partial_result_timeout := 0
    last_result := none
    grammar_id := none
    grammar_table := []
    detector := 0
    detectorCreated := false
    complete_event := none
    inprogress_recog := none
    stop_response := none
    close_requested := false }

/-- External outcomes a request dispatch may depend on: whether the grammar
file opens for writing, whether `cmd_ln_init` plus `ps_init`/`ps_reinit`
succeed, and whether `ps_start_utt` fails for a decoder-internal reason
other than an already-active utterance. -/
structure DispatchEnv where
  fileOpenOk : Bool
  decoderInitOk : Bool
  startUttFail : Bool
  deriving Repr, DecidableEq

/-- External outcomes one audio frame may depend on: the interim
hypothesis `ps_get_hyp` would return (`none` models a NULL pointer),
the event `mpf_activity_detector_process` returns and the detector state
it leaves behind. -/
structure FrameEnv where
  partialHyp : Option String
  detEvent : DetEvent
  detNext : Nat
  deriving Repr, DecidableEq

/-- Result of one channel request handler: the new state, the (possibly
status-rewritten) response object, the emitted actions, and the C return
value (`processed`). -/
structure StepResult where
  state : RecogState
  resp : Response
  acts : List Action
  ok : Bool
  deriving Repr, DecidableEq

/-- Result of `pocketsphinx_recognition_complete`. -/
structure CompleteResult where
  state : RecogState
  acts : List Action
  ok : Bool
  deriving Repr, DecidableEq

/-- Result of `pocketsphinx_stream_write`: the new state, the emitted
actions, and the C return value. -/
structure FrameResult where
  state : RecogState
  acts : List Action
  ok : Bool
  deriving Repr, DecidableEq

/-- Modelled from the spec: `mrcp_response_create` (not among the sources)
creates the one response for a request, with success status and complete
request state by default. -/
def mrcp_response_create (req : Request) : Response :=
  { reqId := req.reqId, status := .success, reqState := .complete }

/-- Is `pat` a prefix of `l`? (character-list helper for `strstr`). -/
def charPrefix : List Char → List Char → Bool
  | [], _ => true
  | _ :: _, [] => false
  | a :: as, b :: bs => a == b && charPrefix as bs

/-- Does `pat` occur inside `l`? (character-list helper for `strstr`). -/
def charContains (pat : List Char) : List Char → Bool
  | [] => pat.isEmpty
  | c :: rest => charPrefix pat (c :: rest) || charContains pat rest

/-- `strstr(hay, pat) != NULL`: does `pat` occur inside `hay`? -/
def hasSubstr (hay pat : String) : Bool :=
  charContains pat.toList hay.toList

/-- `apr_table_get` on the grammar table. -/
def tableGet (t : List (String × String)) (k : String) : Option String :=
  match t with
  | [] => none
  | (k1, v) :: rest => if k1 = k then some v else tableGet rest k

/-- `apr_table_setn`: replace the value under an existing key, else append. -/
def tableSet (t : List (String × String)) (k v : String) : List (String × String) :=
  match t with
  | [] => [(k, v)]
  | (k1, v1) :: rest =>
      if k1 = k then (k1, v) :: rest else (k1, v1) :: tableSet rest k v

/-- `apr_table_unset`: drop every entry under the key. -/
def tableUnset (t : List (String × String)) (k : String) : List (String × String) :=
  t.filter (fun e => e.1 != k)

/-- The grammar file path
`"pocketsphinx/<channel-id>-<content-id>.gram"` built by
`pocketsphinx_define_grammar` (resolution through the engine's data-dir
layout is abstracted into the relative path itself). -/
def grammarFilePath (channelId contentId : String) : String :=
  "pocketsphinx/" ++ channelId ++ "-" ++ contentId ++ ".gram"

/-- `ps_get_prob`-backed confidence is hardcoded to 99 in the NLSML body
the plugin formats; this is that body, with `apr_psprintf`'s rendering of
a NULL `%s` argument written out for an undefined grammar id. -/
def fmtCStr (o : Option String) : String :=
  match o with
  | some s => s
  | none => "(null)"

/-- The fixed-schema NLSML result document `pocketsphinx_recognition_complete`
formats from the active grammar id and the final hypothesis. -/
def nlsmlBody (grammarId : Option String) (input : String) : String :=
  "<?xml version=\"1.0\"?>\n" ++
  "<result grammar=\"" ++ fmtCStr grammarId ++ "\">\n" ++
  "  <interpretation grammar=\"" ++ fmtCStr grammarId ++ "\" confidence=\"99\">\n" ++
  "    <input mode=\"speech\">" ++ input ++ "</input>\n" ++
  "  </interpretation>\n" ++
  "</result>\n"

/-- `pocketsphinx_decoder_init`: reconfigure and (re)initialize the decoder
on a grammar file; on success ensure the activity detector exists.  The
`cmd_ln_init` / `ps_init` / `ps_reinit` outcome is `env.decoderInitOk`;
the `cmd_ln_t` configuration handle itself is decoder-internal state and
is not tracked. -/
def pocketsphinx_decoder_init (s : RecogState) (env : DispatchEnv) :
    RecogState × Bool :=
  if env.decoderInitOk then
    ({ s with
        decoder := true
        detector := if s.detectorCreated then s.detector else 0
        detectorCreated := true }, true)
  else
    (s, false)

/-- `pocketsphinx_define_grammar`: validate headers, persist the grammar
body, (re)initialize the decoder (rolling the file back on failure), or,
with no body, unload the grammar under the content-id. -/
def pocketsphinx_define_grammar (s : RecogState) (req : Request)
    (resp : Response) (env : DispatchEnv) : StepResult :=
  if req.hasGenericHeader = false then
    ⟨s, resp, [], false⟩
  else
    match req.contentId with
    | none => ⟨s, { resp with status := .missingParam }, [], false⟩
    | some cid =>
      if req.hasContentLength then
        match req.contentType with
        | none => ⟨s, { resp with status := .missingParam }, [], false⟩
        | some ct =>
          if hasSubstr ct "jsgf" = false then
            ⟨s, { resp with status := .unsupportedParamValue }, [], false⟩
          else
            let path := grammarFilePath s.channelId cid
            if env.fileOpenOk = false then
              ⟨s, { resp with status := .methodFailed }, [], false⟩
            else
              match pocketsphinx_decoder_init s env with
              | (s1, true) =>
                  ⟨{ s1 with
                      grammar_id := some cid
                      grammar_table := tableSet s1.grammar_table cid path },
                   resp,
                   [.fileWrite path, .send (.resp resp)], true⟩
              | (s1, false) =>
                  ⟨s1, { resp with status := .methodFailed },
                   [.fileWrite path, .fileRemove path], false⟩
      else
        match tableGet s.grammar_table cid with
        | some path =>
            ⟨{ s with grammar_table := tableUnset s.grammar_table cid },
             resp, [.fileRemove path, .send (.resp resp)], true⟩
        | none => ⟨s, resp, [.send (.resp resp)], true⟩

/-- `pocketsphinx_recognize`: fail with method-failed when the decoder is
absent or `ps_start_utt` fails; otherwise answer in-progress, reset the
detector, the timers and the last result, clear any stale completion
event and record the in-progress RECOGNIZE. -/
def pocketsphinx_recognize (s : RecogState) (req : Request)
    (resp : Response) (env : DispatchEnv) : StepResult :=
  if s.decoder = false then
    ⟨s, { resp with status := .methodFailed }, [], false⟩
  else if s.uttActive || env.startUttFail then
    ⟨s, { resp with status := .methodFailed }, [.psStartUtt], false⟩
  else
    let resp1 := { resp with reqState := .inProgress }
    ⟨{ s with
        uttActive := true
        detector := 0
        recognition_timeout := 0
        partial_result_timeout := 0
        last_result := none
        complete_event := none
        inprogress_recog := some req },
     resp1,
     [.psStartUtt, .send (.resp resp1), .detectorReset], true⟩

/-- `pocketsphinx_stop`: defer the response while a recognition is
in-progress, else answer immediately. -/
def pocketsphinx_stop (s : RecogState) (resp : Response) : StepResult :=
  if s.inprogress_recog.isSome then
    ⟨{ s with stop_response := some resp }, resp, [], true⟩
  else
    ⟨s, resp, [.send (.resp resp)], true⟩

/-- `pocketsphinx_recognition_complete`: ignore a false event; otherwise
clear the in-progress marker, end the utterance, release a deferred STOP
response in place of the event if one is pending, else fetch the
hypothesis on a success cause (rewriting it to no-match when empty,
attaching the NLSML body when not) and send the event. -/
def pocketsphinx_recognition_complete (s : RecogState) (ev : CompleteEvent)
    (hyp : Option String) : CompleteResult :=
  if s.inprogress_recog.isNone then
    ⟨s, [], false⟩
  else
    let s1 := { s with inprogress_recog := none, uttActive := false }
    match s1.stop_response with
    | some r =>
        let s2 := { s1 with stop_response := none }
        if s2.close_requested = false then
          ⟨s2, [.psEndUtt, .send (.resp r)], true⟩
        else
          ⟨s2, [.psEndUtt], true⟩
    | none =>
        if ev.cause = .success then
          match hyp with
          | some h =>
              if h = "" then
                ⟨s1, [.psEndUtt, .psGetHyp,
                      .send (.recogComplete { ev with cause := .noMatch })], true⟩
              else
                let body := nlsmlBody s1.grammar_id h
                let ev1 := { ev with
                              body := some body
                              contentType := some "application/x-nlsml" }
                ⟨{ s1 with last_result := some h },
                 [.psEndUtt, .psGetHyp, .send (.recogComplete ev1)], true⟩
          | none =>
              ⟨s1, [.psEndUtt, .psGetHyp,
                    .send (.recogComplete { ev with cause := .noMatch })], true⟩
        else
          ⟨s1, [.psEndUtt, .send (.recogComplete ev)], true⟩

/-- `pocketsphinx_request_dispatch`: create the response, switch on the
method, and send the (possibly failure-marked) response for every request
the handler did not already answer. -/
def pocketsphinx_request_dispatch (s : RecogState) (req : Request)
    (env : DispatchEnv) : RecogState × List Action :=
  let resp := mrcp_response_create req
  let r : StepResult :=
    match req.method with
    | .defineGrammar => pocketsphinx_define_grammar s req resp env
    | .recognize => pocketsphinx_recognize s req resp env
    | .stop => pocketsphinx_stop s resp
    | _ => ⟨s, resp, [], false⟩
  if r.ok = false then
    (r.state, r.acts ++ [.send (.resp r.resp)])
  else
    (r.state, r.acts)

/-- `pocketsphinx_end_of_input`: build a RECOGNITION-COMPLETE event for
the in-progress RECOGNIZE with the given cause and raise it through the
completion-event mailbox slot. -/
def pocketsphinx_end_of_input (s : RecogState) (cause : CompletionCause) :
    RecogState :=
  match s.inprogress_recog with
  | some u =>
      { s with
          complete_event :=
            some { reqId := u.reqId, cause := cause
                   body := none, contentType := none } }
  | none => s

/-- The partial-result block of `pocketsphinx_stream_write`: advance
`partial_result_timeout` by the frame duration; exactly at the configured
partial-result threshold, reset it to zero and poll `ps_get_hyp` for an
interim hypothesis, updating `last_result` when the hypothesis is
non-empty and differs from it. -/
def partial_result_step (props : Properties) (s : RecogState)
    (env : FrameEnv) : RecogState × List Action :=
  let s1 := { s with
               partial_result_timeout :=
                 s.partial_result_timeout + CODEC_FRAME_TIME_BASE }
  if s1.partial_result_timeout = props.partial_result_timeout then
    let s2 := { s1 with partial_result_timeout := 0 }
    match env.partialHyp with
    | some h =>
        if h = "" then (s2, [Action.psGetHyp])
        else if s2.last_result = some h then (s2, [Action.psGetHyp])
        else ({ s2 with last_result := some h }, [Action.psGetHyp])
    | none => (s2, [Action.psGetHyp])
  else (s1, [])

/-- `pocketsphinx_stream_write`: per-frame audio ingress.  Active only
while a recognition is in-progress and no completion is pending; a
deferred STOP short-circuits into a success completion; otherwise feed
the decoder, advance the partial-result and recognition timers (the
recognition timeout pre-empting the detector), then run the activity
detector and raise START-OF-INPUT or a completion on its events. -/
def pocketsphinx_stream_write (props : Properties) (s : RecogState)
    (env : FrameEnv) : FrameResult :=
  match s.inprogress_recog with
  | none => ⟨s, [], true⟩
  | some u =>
    if s.complete_event.isSome then
      ⟨s, [], true⟩
    else if s.stop_response.isSome then
      ⟨pocketsphinx_end_of_input s .success, [], true⟩
    else
      let pr := partial_result_step props s env
      let s3 := { pr.1 with
                   recognition_timeout :=
                     pr.1.recognition_timeout + CODEC_FRAME_TIME_BASE }
      let acts := Action.psProcessRaw :: pr.2
      if s3.recognition_timeout = props.recognition_timeout then
        ⟨pocketsphinx_end_of_input s3 .recognitionTimeout, acts, true⟩
      else
        let s4 := { s3 with detector := env.detNext }
        match env.detEvent with
        | .activity =>
            ⟨s4, acts ++ [.detectorProcess, .send (.startOfInput u.reqId)], true⟩
        | .inactivity =>
            ⟨pocketsphinx_end_of_input s4 .success,
             acts ++ [.detectorProcess], true⟩
        | .noinput =>
            ⟨pocketsphinx_end_of_input s4 .noInputTimeout,
             acts ++ [.detectorProcess], true⟩
        | .none => ⟨s4, acts ++ [.detectorProcess], true⟩

/-- The protocol messages among a trace of actions, in order. -/
def sends (acts : List Action) : List SentMsg :=
  acts.filterMap (fun a =>
    match a with
    | .send m => some m
    | _ => none)

/-- Is this message a response answering request `id`? -/
def isRespFor (id : Nat) (m : SentMsg) : Bool :=
  match m with
  | .resp r => r.reqId == id
  | _ => false

/-- Is this message a RECOGNITION-COMPLETE event? -/
def isRecogCompleteMsg (m : SentMsg) : Bool :=
  match m with
  | .recogComplete _ => true
  | _ => false

/-- The number of responses answering request `id` in a trace. -/
def respCount (acts : List Action) (id : Nat) : Nat :=
  ((sends acts).filter (isRespFor id)).length

/-- The channel invariant tying the protocol-level in-progress marker to
the decoder-level utterance state: whenever a RECOGNIZE is recorded as
in-progress, the decoder holds an active utterance (so a further
`ps_start_utt` fails). -/
def WF (s : RecogState) : Prop :=
  s.inprogress_recog.isSome → s.uttActive = true

/-! Concrete sample data used by the witness theorems. -/

/-- A sample RECOGNIZE request. -/
def wReqRecognize : Request :=
  { reqId := 1, method := .recognize, hasGenericHeader := true
    contentId := none, contentType := none
    hasContentLength := false, body := "" }

/-- A sample STOP request. -/
def wReqStop : Request :=
  { reqId := 2, method := .stop, hasGenericHeader := true
    contentId := none, contentType := none
    hasContentLength := false, body := "" }

/-- A sample all-success dispatch environment. -/
def wEnvOk : DispatchEnv :=
  { fileOpenOk := true, decoderInitOk := true, startUttFail := false }

/-- A sample channel that has defined a grammar and holds a live decoder. -/
def wReady : RecogState :=
  { initialState "ch" with
      decoder := true
      detectorCreated := true
      grammar_id := some "g1"
      grammar_table := [("g1", grammarFilePath "ch" "g1")] }

/-- `wReady` with a RECOGNIZE in progress. -/
def wActive : RecogState :=
  { wReady with uttActive := true, inprogress_recog := some wReqRecognize }

/-- A sample quiet audio frame environment. -/
def wFrameQuiet : FrameEnv :=
  { partialHyp := none, detEvent := .none, detNext := 3 }

/-- A sample success-cause completion event for the in-progress RECOGNIZE. -/
def wEvSuccess : CompleteEvent :=
  { reqId := 1, cause := .success, body := none, contentType := none }

/-! Helper lemmas shared by the claim theorems. -/

theorem stream_write_noop_of_no_inprogress (props : Properties)
    (s : RecogState) (env : FrameEnv) (h : s.inprogress_recog = none) :
    pocketsphinx_stream_write props s env = ⟨s, [], true⟩ := by
  simp [pocketsphinx_stream_write, h]

theorem partial_result_step_fields (props : Properties) (s : RecogState)
    (env : FrameEnv) :
    (partial_result_step props s env).1.inprogress_recog =
        s.inprogress_recog ∧
    (partial_result_step props s env).1.recognition_timeout =
        s.recognition_timeout ∧
    (partial_result_step props s env).1.complete_event = s.complete_event ∧
    (partial_result_step props s env).1.stop_response = s.stop_response ∧
    (partial_result_step props s env).1.uttActive = s.uttActive ∧
    sends (partial_result_step props s env).2 = [] ∧
    Action.detectorProcess ∉ (partial_result_step props s env).2 := by
  cases henv : env.partialHyp with
  | none => simp only [partial_result_step, henv]; split_ifs <;> simp [sends]
  | some h => simp only [partial_result_step, henv]; split_ifs <;> simp [sends]

theorem end_of_input_marker_fields (s : RecogState)
    (cause : CompletionCause) :
    (pocketsphinx_end_of_input s cause).inprogress_recog =
        s.inprogress_recog ∧
    (pocketsphinx_end_of_input s cause).uttActive = s.uttActive := by
  unfold pocketsphinx_end_of_input
  split <;> simp_all

theorem define_grammar_marker_fields (s : RecogState) (req : Request)
    (resp : Response) (env : DispatchEnv) :
    (pocketsphinx_define_grammar s req resp env).state.inprogress_recog =
        s.inprogress_recog ∧
    (pocketsphinx_define_grammar s req resp env).state.uttActive =
        s.uttActive := by
  unfold pocketsphinx_define_grammar pocketsphinx_decoder_init
  repeat' split
  all_goals try exact ⟨rfl, rfl⟩
  all_goals split_ifs at *
  all_goals (rename_i heq
             injection heq with h1 h2
             first
               | exact Bool.noConfusion h2
               | (subst h1; exact ⟨rfl, rfl⟩))

theorem dispatch_state_eq (s : RecogState) (req : Request)
    (env : DispatchEnv) :
    (pocketsphinx_request_dispatch s req env).1 =
      (match req.method with
       | .defineGrammar =>
           pocketsphinx_define_grammar s req (mrcp_response_create req) env
       | .recognize =>
           pocketsphinx_recognize s req (mrcp_response_create req) env
       | .stop => pocketsphinx_stop s (mrcp_response_create req)
       | _ => ⟨s, mrcp_response_create req, [], false⟩).state := by
  unfold pocketsphinx_request_dispatch
  split <;> (dsimp only; split <;> rfl)

theorem stream_write_marker_fields (props : Properties) (s : RecogState)
    (env : FrameEnv) :
    (pocketsphinx_stream_write props s env).state.inprogress_recog =
        s.inprogress_recog ∧
    (pocketsphinx_stream_write props s env).state.uttActive =
        s.uttActive := by
  obtain ⟨h1, h2, h3, h4, h5, h6, h7⟩ := partial_result_step_fields props s env
  unfold pocketsphinx_stream_write
  cases hi : s.inprogress_recog with
  | none => simp [hi]
  | some u =>
    dsimp only
    split_ifs
    · exact ⟨hi, rfl⟩
    · refine ⟨?_, ?_⟩
      · rw [(end_of_input_marker_fields s .success).1]
        exact hi
      · rw [(end_of_input_marker_fields s .success).2]
    · refine ⟨?_, ?_⟩
      · rw [(end_of_input_marker_fields _ .recognitionTimeout).1]
        exact h1.trans hi
      · rw [(end_of_input_marker_fields _ .recognitionTimeout).2]
        exact h5
    · cases env.detEvent <;> dsimp only <;>
        refine ⟨?_, ?_⟩ <;>
        first
          | exact h1.trans hi
          | exact h5
          | (rw [(end_of_input_marker_fields _ .success).1]; exact h1.trans hi)
          | (rw [(end_of_input_marker_fields _ .success).2]; exact h5)
          | (rw [(end_of_input_marker_fields _ .noInputTimeout).1]
             exact h1.trans hi)
          | (rw [(end_of_input_marker_fields _ .noInputTimeout).2]; exact h5)

theorem recognition_complete_state_cases (s : RecogState)
    (ev : CompleteEvent) (hyp : Option String) :
    (pocketsphinx_recognition_complete s ev hyp).state.inprogress_recog =
        none ∨
    (pocketsphinx_recognition_complete s ev hyp).state = s := by
  unfold pocketsphinx_recognition_complete
  repeat' split
  all_goals try exact Or.inr rfl
  all_goals left
  all_goals cases s.stop_response
  all_goals try simp
  all_goals try split_ifs
  all_goals simp

theorem stream_write_noop_of_pending (props : Properties)
    (s : RecogState) (env : FrameEnv) (h : s.complete_event.isSome = true) :
    pocketsphinx_stream_write props s env = ⟨s, [], true⟩ := by
  cases hi : s.inprogress_recog with
  | none => simp [pocketsphinx_stream_write, hi]
  | some u => simp [pocketsphinx_stream_write, hi, h]

theorem mrcp_response_create_reqId (req : Request) :
    (mrcp_response_create req).reqId = req.reqId := rfl

theorem respCount_append (a b : List Action) (id : Nat) :
    respCount (a ++ b) id = respCount a id + respCount b id := by
  simp [respCount, sends, List.filterMap_append, List.filter_append,
        List.length_append]

theorem define_grammar_one_response (s : RecogState) (req : Request)
    (resp : Response) (env : DispatchEnv) :
    (pocketsphinx_define_grammar s req resp env).resp.reqId = resp.reqId ∧
    respCount (pocketsphinx_define_grammar s req resp env).acts
        resp.reqId =
      (if (pocketsphinx_define_grammar s req resp env).ok then 1 else 0) := by
  unfold pocketsphinx_define_grammar pocketsphinx_decoder_init
  repeat' split
  all_goals simp_all [respCount, sends, isRespFor]

theorem recognize_one_response (s : RecogState) (req : Request)
    (resp : Response) (env : DispatchEnv) :
    (pocketsphinx_recognize s req resp env).resp.reqId = resp.reqId ∧
    respCount (pocketsphinx_recognize s req resp env).acts resp.reqId =
      (if (pocketsphinx_recognize s req resp env).ok then 1 else 0) := by
  unfold pocketsphinx_recognize
  split_ifs <;> simp_all [respCount, sends, isRespFor]

/-! Claim theorems. -/

/-- C8: a DEFINE-GRAMMAR request with no content-id header is answered with
exactly one response of MissingParameter status, and the channel state —
in particular the grammar registry and the active grammar id — is left
unchanged. -/
theorem defineGrammar_missing_contentId (s : RecogState) (req : Request)
    (env : DispatchEnv) (hm : req.method = .defineGrammar)
    (hg : req.hasGenericHeader = true) (hc : req.contentId = none) :
    pocketsphinx_request_dispatch s req env =
      (s, [.send (.resp { reqId := req.reqId, status := .missingParam,
                          reqState := .complete })]) := by
  simp [pocketsphinx_request_dispatch, pocketsphinx_define_grammar,
        mrcp_response_create, hm, hg, hc]

theorem defineGrammar_missing_contentId_witness :
    pocketsphinx_request_dispatch wReady
      { reqId := 7, method := .defineGrammar, hasGenericHeader := true
        contentId := none, contentType := some "application/x-jsgf"
        hasContentLength := true, body := "grammar g;" }
      wEnvOk =
      (wReady, [.send (.resp { reqId := 7, status := .missingParam,
                               reqState := .complete })]) :=
  defineGrammar_missing_contentId _ _ _ rfl rfl rfl

/-- C9: a DEFINE-GRAMMAR request carrying a grammar body whose content-type
does not contain the supported "jsgf" marker is answered with exactly one
response of the unsupported-content status
(`MRCP_STATUS_CODE_UNSUPPORTED_PARAM_VALUE`); the channel state is
unchanged and no grammar file is written or removed. -/
theorem defineGrammar_unsupported_content_type (s : RecogState)
    (req : Request) (env : DispatchEnv) (cid ct : String)
    (hm : req.method = .defineGrammar) (hg : req.hasGenericHeader = true)
    (hc : req.contentId = some cid) (hl : req.hasContentLength = true)
    (ht : req.contentType = some ct) (hj : hasSubstr ct "jsgf" = false) :
    pocketsphinx_request_dispatch s req env =
      (s, [.send (.resp { reqId := req.reqId,
                          status := .unsupportedParamValue,
                          reqState := .complete })]) := by
  simp [pocketsphinx_request_dispatch, pocketsphinx_define_grammar,
        mrcp_response_create, hm, hg, hc, hl, ht, hj]

theorem defineGrammar_unsupported_content_type_witness :
    pocketsphinx_request_dispatch wReady
      { reqId := 8, method := .defineGrammar, hasGenericHeader := true
        contentId := some "g2", contentType := some "application/srgs+xml"
        hasContentLength := true, body := "<grammar/>" }
      wEnvOk =
      (wReady, [.send (.resp { reqId := 8,
                               status := .unsupportedParamValue,
                               reqState := .complete })]) :=
  defineGrammar_unsupported_content_type _ _ _ "g2" "application/srgs+xml"
    rfl rfl rfl rfl rfl (by decide)

/-- C5: on a DEFINE-GRAMMAR whose grammar body was persisted but whose
decoder (re)initialization fails, the just-written grammar file is removed
again, exactly one response with method-failed (EngineFailure) status is
sent, and the channel state — grammar registry mapping included — is left
unchanged. -/
theorem defineGrammar_decoder_init_rollback (s : RecogState)
    (req : Request) (env : DispatchEnv) (cid ct : String)
    (hm : req.method = .defineGrammar) (hg : req.hasGenericHeader = true)
    (hc : req.contentId = some cid) (hl : req.hasContentLength = true)
    (ht : req.contentType = some ct) (hj : hasSubstr ct "jsgf" = true)
    (hf : env.fileOpenOk = true) (hd : env.decoderInitOk = false) :
    pocketsphinx_request_dispatch s req env =
      (s, [.fileWrite (grammarFilePath s.channelId cid),
           .fileRemove (grammarFilePath s.channelId cid),
           .send (.resp { reqId := req.reqId, status := .methodFailed,
                          reqState := .complete })]) := by
  simp [pocketsphinx_request_dispatch, pocketsphinx_define_grammar,
        pocketsphinx_decoder_init, mrcp_response_create,
        hm, hg, hc, hl, ht, hj, hf, hd]

theorem defineGrammar_decoder_init_rollback_witness :
    pocketsphinx_request_dispatch wReady
      { reqId := 9, method := .defineGrammar, hasGenericHeader := true
        contentId := some "g3", contentType := some "application/x-jsgf"
        hasContentLength := true, body := "grammar g;" }
      { fileOpenOk := true, decoderInitOk := false, startUttFail := false } =
      (wReady, [.fileWrite (grammarFilePath "ch" "g3"),
                .fileRemove (grammarFilePath "ch" "g3"),
                .send (.resp { reqId := 9, status := .methodFailed,
                               reqState := .complete })]) :=
  defineGrammar_decoder_init_rollback _ _ _ "g3" "application/x-jsgf"
    rfl rfl rfl rfl rfl (by decide) rfl rfl

/-- C10: an audio frame arriving when no recognition is in-progress, or
when a completion event is already pending, changes no channel state,
emits no action (in particular sends no protocol message), and the
callback still returns success. -/
theorem stream_write_inactive_noop (props : Properties) (s : RecogState)
    (env : FrameEnv)
    (h : s.inprogress_recog = none ∨ s.complete_event.isSome = true) :
    pocketsphinx_stream_write props s env = ⟨s, [], true⟩ := by
  rcases h with h | h
  · exact stream_write_noop_of_no_inprogress props s env h
  · exact stream_write_noop_of_pending props s env h

theorem stream_write_inactive_noop_witness :
    pocketsphinx_stream_write defaultProperties wReady wFrameQuiet =
      ⟨wReady, [], true⟩ :=
  stream_write_inactive_noop _ _ _ (Or.inl rfl)

/-- C4: dispatching a RECOGNIZE fails with exactly one method-failed
(EngineFailure) response and no state change when no decoder is active or
the utterance cannot be started; otherwise it sends exactly one response
with request state in-progress, resets the activity detector, zeroes
`recognition_timeout` and `partial_result_timeout`, clears `last_result`
and any stale completion event, and records the request as the
in-progress recognition — with no terminal (complete-state) response. -/
theorem recognize_dispatch_behavior (s : RecogState) (req : Request)
    (env : DispatchEnv) (hm : req.method = .recognize) :
    (s.decoder = false ∨ s.uttActive = true ∨ env.startUttFail = true →
       (pocketsphinx_request_dispatch s req env).1 = s ∧
       sends (pocketsphinx_request_dispatch s req env).2 =
         [.resp { reqId := req.reqId, status := .methodFailed,
                  reqState := .complete }]) ∧
    (s.decoder = true → s.uttActive = false → env.startUttFail = false →
       pocketsphinx_request_dispatch s req env =
         ({ s with
              uttActive := true
              detector := 0
              recognition_timeout := 0
              partial_result_timeout := 0
              last_result := none
              complete_event := none
              inprogress_recog := some req },
          [.psStartUtt,
           .send (.resp { reqId := req.reqId, status := .success,
                          reqState := .inProgress }),
           .detectorReset])) := by
  constructor
  · intro h
    rcases h with h | h | h <;>
      simp [pocketsphinx_request_dispatch, pocketsphinx_recognize,
            mrcp_response_create, sends, hm, h] <;>
      split <;> simp_all [sends]
  · intro h1 h2 h3
    simp [pocketsphinx_request_dispatch, pocketsphinx_recognize,
          mrcp_response_create, hm, h1, h2, h3]

theorem recognize_dispatch_behavior_witness :
    (pocketsphinx_request_dispatch (initialState "ch") wReqRecognize wEnvOk).1 =
        initialState "ch" ∧
    sends (pocketsphinx_request_dispatch (initialState "ch") wReqRecognize wEnvOk).2 =
        [.resp { reqId := 1, status := .methodFailed, reqState := .complete }] ∧
    pocketsphinx_request_dispatch wReady wReqRecognize wEnvOk =
      ({ wReady with
           uttActive := true
           detector := 0
           recognition_timeout := 0
           partial_result_timeout := 0
           last_result := none
           complete_event := none
           inprogress_recog := some wReqRecognize },
       [.psStartUtt,
        .send (.resp { reqId := 1, status := .success,
                       reqState := .inProgress }),
        .detectorReset]) :=
  ⟨((recognize_dispatch_behavior (initialState "ch") wReqRecognize wEnvOk rfl).1
      (Or.inl rfl)).1,
   ((recognize_dispatch_behavior (initialState "ch") wReqRecognize wEnvOk rfl).1
      (Or.inl rfl)).2,
   (recognize_dispatch_behavior wReady wReqRecognize wEnvOk rfl).2 rfl rfl rfl⟩

/-- C7: when a completion event with cause success is processed and no
deferred STOP is pending, the decoder hypothesis is fetched; an absent or
empty hypothesis rewrites the cause to no-match and the event goes out
with no body, while a non-empty hypothesis is formatted into the
fixed-schema NLSML document, attached as the event body with content type
`application/x-nlsml`, recorded as `last_result`, and the event is sent
with its success cause. -/
theorem recognition_complete_success_result (s : RecogState)
    (ev : CompleteEvent) (hyp : Option String)
    (hi : s.inprogress_recog.isSome = true) (hs : s.stop_response = none)
    (hc : ev.cause = .success) (hb : ev.body = none) :
    ((hyp = none ∨ hyp = some "") →
       pocketsphinx_recognition_complete s ev hyp =
         ⟨{ s with inprogress_recog := none, uttActive := false },
          [.psEndUtt, .psGetHyp,
           .send (.recogComplete { reqId := ev.reqId, cause := .noMatch,
                                   body := none,
                                   contentType := ev.contentType })],
          true⟩) ∧
    (∀ h : String, hyp = some h → h ≠ "" →
       pocketsphinx_recognition_complete s ev hyp =
         ⟨{ s with inprogress_recog := none, uttActive := false,
                   last_result := some h },
          [.psEndUtt, .psGetHyp,
           .send (.recogComplete { reqId := ev.reqId, cause := .success,
                                   body := some (nlsmlBody s.grammar_id h),
                                   contentType :=
                                     some "application/x-nlsml" })],
          true⟩) := by
  have hnn : s.inprogress_recog ≠ none := Option.isSome_iff_ne_none.mp hi
  obtain ⟨rid, cause, body, ctype⟩ := ev
  simp only at hc hb
  subst hc hb
  constructor
  · intro h
    rcases h with h | h <;> subst h <;>
      simp [pocketsphinx_recognition_complete, hnn, hs]
  · intro h hh hne
    subst hh
    simp [pocketsphinx_recognition_complete, hnn, hs, hne]

theorem recognition_complete_success_result_witness :
    pocketsphinx_recognition_complete wActive wEvSuccess none =
      ⟨{ wActive with inprogress_recog := none, uttActive := false },
       [.psEndUtt, .psGetHyp,
        .send (.recogComplete { reqId := 1, cause := .noMatch,
                                body := none, contentType := none })],
       true⟩ ∧
    pocketsphinx_recognition_complete wActive wEvSuccess (some "open door") =
      ⟨{ wActive with inprogress_recog := none, uttActive := false,
                      last_result := some "open door" },
       [.psEndUtt, .psGetHyp,
        .send (.recogComplete { reqId := 1, cause := .success,
                                body := some (nlsmlBody (some "g1") "open door"),
                                contentType := some "application/x-nlsml" })],
       true⟩ :=
  ⟨(recognition_complete_success_result wActive wEvSuccess none
      rfl rfl rfl rfl).1 (Or.inl rfl),
   (recognition_complete_success_result wActive wEvSuccess (some "open door")
      rfl rfl rfl rfl).2 "open door" rfl (by decide)⟩

/-- C1: a STOP dispatched while a RECOGNIZE is in-progress sends nothing
and stores its response as the deferred STOP response; when the
completion event for that utterance is later processed, the stored STOP
response is the only message sent — the RECOGNITION-COMPLETE event is
discarded — so the same utterance never yields both a STOP response and a
RECOGNITION-COMPLETE event. -/
theorem stop_deferral_supersedes_completion :
    (∀ (s : RecogState) (req : Request) (env : DispatchEnv),
       req.method = .stop → s.inprogress_recog.isSome = true →
       pocketsphinx_request_dispatch s req env =
         ({ s with stop_response := some (mrcp_response_create req) }, [])) ∧
    (∀ (s : RecogState) (ev : CompleteEvent) (hyp : Option String)
       (r : Response),
       s.inprogress_recog.isSome = true → s.stop_response = some r →
       s.close_requested = false →
       pocketsphinx_recognition_complete s ev hyp =
         ⟨{ s with inprogress_recog := none, uttActive := false,
                   stop_response := none },
          [.psEndUtt, .send (.resp r)], true⟩) := by
  constructor
  · intro s req env hm hi
    simp [pocketsphinx_request_dispatch, pocketsphinx_stop,
          mrcp_response_create, hm, hi]
  · intro s ev hyp r hi hr hcl
    have hnn : s.inprogress_recog ≠ none := Option.isSome_iff_ne_none.mp hi
    simp [pocketsphinx_recognition_complete, hnn, hr, hcl]

theorem stop_deferral_supersedes_completion_witness :
    pocketsphinx_request_dispatch wActive wReqStop wEnvOk =
      ({ wActive with
           stop_response := some (mrcp_response_create wReqStop) }, []) ∧
    pocketsphinx_recognition_complete
        { wActive with stop_response := some (mrcp_response_create wReqStop) }
        wEvSuccess (some "open door") =
      ⟨{ wActive with inprogress_recog := none, uttActive := false,
                      stop_response := none },
       [.psEndUtt, .send (.resp (mrcp_response_create wReqStop))], true⟩ :=
  ⟨stop_deferral_supersedes_completion.1 wActive wReqStop wEnvOk rfl rfl,
   stop_deferral_supersedes_completion.2
     { wActive with stop_response := some (mrcp_response_create wReqStop) }
     wEvSuccess (some "open door") (mrcp_response_create wReqStop)
     rfl rfl rfl⟩

/-- C6: when the recognition-timeout counter, advanced by the fixed
per-frame duration, reaches the configured threshold on a frame (with no
completion pending and no deferred STOP), a completion with cause
recognition-timeout is raised, the activity detector is not run on that
frame, no protocol message is sent from it, and every later frame for
that utterance is a no-op. -/
theorem recognition_timeout_preempts_detector (props : Properties)
    (s : RecogState) (env : FrameEnv) (u : Request)
    (hi : s.inprogress_recog = some u) (hce : s.complete_event = none)
    (hsr : s.stop_response = none)
    (ht : s.recognition_timeout + CODEC_FRAME_TIME_BASE =
            props.recognition_timeout) :
    (pocketsphinx_stream_write props s env).state.complete_event =
        some { reqId := u.reqId, cause := .recognitionTimeout,
               body := none, contentType := none } ∧
    Action.detectorProcess ∉ (pocketsphinx_stream_write props s env).acts ∧
    sends (pocketsphinx_stream_write props s env).acts = [] ∧
    (∀ env2 : FrameEnv,
       pocketsphinx_stream_write props
           (pocketsphinx_stream_write props s env).state env2 =
         ⟨(pocketsphinx_stream_write props s env).state, [], true⟩) := by
  obtain ⟨h1, h2, h3, h4, h5, h6, h7⟩ := partial_result_step_fields props s env
  have heq : pocketsphinx_stream_write props s env =
      ⟨pocketsphinx_end_of_input
         { (partial_result_step props s env).1 with
             recognition_timeout :=
               (partial_result_step props s env).1.recognition_timeout +
                 CODEC_FRAME_TIME_BASE }
         .recognitionTimeout,
       Action.psProcessRaw :: (partial_result_step props s env).2, true⟩ := by
    unfold pocketsphinx_stream_write
    rw [hi]
    simp [hce, hsr, h2, ht]
  have hev : (pocketsphinx_stream_write props s env).state.complete_event =
      some { reqId := u.reqId, cause := .recognitionTimeout,
             body := none, contentType := none } := by
    rw [heq]
    simp [pocketsphinx_end_of_input, h1, hi]
  refine ⟨hev, ?_, ?_, ?_⟩
  · rw [heq]
    simp [h7]
  · rw [heq]
    simp [sends] at h6 ⊢
    exact h6
  · intro env2
    exact stream_write_noop_of_pending props _ env2 (by rw [hev]; rfl)

theorem recognition_timeout_preempts_detector_witness :
    (pocketsphinx_stream_write defaultProperties
        { wActive with recognition_timeout := 14990 } wFrameQuiet).state.complete_event =
      some { reqId := 1, cause := .recognitionTimeout,
             body := none, contentType := none } ∧
    Action.detectorProcess ∉
      (pocketsphinx_stream_write defaultProperties
        { wActive with recognition_timeout := 14990 } wFrameQuiet).acts ∧
    sends (pocketsphinx_stream_write defaultProperties
        { wActive with recognition_timeout := 14990 } wFrameQuiet).acts = [] ∧
    pocketsphinx_stream_write defaultProperties
        (pocketsphinx_stream_write defaultProperties
          { wActive with recognition_timeout := 14990 } wFrameQuiet).state wFrameQuiet =
      ⟨(pocketsphinx_stream_write defaultProperties
          { wActive with recognition_timeout := 14990 } wFrameQuiet).state, [], true⟩ := by
  obtain ⟨a, b, c, d⟩ := recognition_timeout_preempts_detector defaultProperties
    { wActive with recognition_timeout := 14990 } wFrameQuiet wReqRecognize
    rfl rfl rfl (by decide)
  exact ⟨a, b, c, d wFrameQuiet⟩

/-- C3: at most one RECOGNIZE is in-progress per channel at any time:
under the channel invariant `WF` (the in-progress marker implies a live
decoder utterance, so `ps_start_utt` fails), a second RECOGNIZE
dispatched while one is in-progress is rejected with exactly one
method-failed response and changes no state — the first utterance keeps
its in-progress marker and nothing is double-started or dropped — and
`WF` holds for a fresh channel and is preserved by every request
dispatch, audio frame and completion step. -/
theorem at_most_one_recognize_inprogress :
    (∀ (s : RecogState) (req : Request) (env : DispatchEnv) (u : Request),
       WF s → s.inprogress_recog = some u → req.method = .recognize →
       (pocketsphinx_request_dispatch s req env).1 = s ∧
       sends (pocketsphinx_request_dispatch s req env).2 =
         [.resp { reqId := req.reqId, status := .methodFailed,
                  reqState := .complete }]) ∧
    (∀ (s : RecogState) (req : Request) (env : DispatchEnv),
       WF s → WF (pocketsphinx_request_dispatch s req env).1) ∧
    (∀ (props : Properties) (s : RecogState) (env : FrameEnv),
       WF s → WF (pocketsphinx_stream_write props s env).state) ∧
    (∀ (s : RecogState) (ev : CompleteEvent) (hyp : Option String),
       WF s → WF (pocketsphinx_recognition_complete s ev hyp).state) ∧
    (∀ cid : String, WF (initialState cid)) := by
  refine ⟨?_, ?_, ?_, ?_, ?_⟩
  · intro s req env u hw hi hm
    have hu : s.uttActive = true := hw (by rw [hi]; rfl)
    by_cases hd : s.decoder = false
    · constructor <;>
        simp [pocketsphinx_request_dispatch, pocketsphinx_recognize,
              mrcp_response_create, sends, hm, hd]
    · have hd2 : s.decoder = true := by
        cases hb : s.decoder
        · exact absurd hb hd
        · rfl
      constructor <;>
        simp [pocketsphinx_request_dispatch, pocketsphinx_recognize,
              mrcp_response_create, sends, hm, hd2, hu]
  · intro s req env hw
    rw [dispatch_state_eq]
    cases hm : req.method
    case defineGrammar =>
      obtain ⟨e1, e2⟩ :=
        define_grammar_marker_fields s req (mrcp_response_create req) env
      intro h
      rw [e1] at h
      rw [e2]
      exact hw h
    case recognize =>
      unfold pocketsphinx_recognize
      split_ifs
      · exact hw
      · exact hw
      · intro _
        rfl
    case stop =>
      unfold pocketsphinx_stop
      split_ifs
      · intro h
        exact hw h
      · exact hw
    all_goals exact hw
  · intro props s env hw
    obtain ⟨e1, e2⟩ := stream_write_marker_fields props s env
    intro h
    rw [e1] at h
    rw [e2]
    exact hw h
  · intro s ev hyp hw
    rcases recognition_complete_state_cases s ev hyp with h | h
    · intro hx
      rw [h] at hx
      simp at hx
    · rw [h]
      exact hw
  · intro cid h
    simp [initialState] at h

theorem at_most_one_recognize_inprogress_witness :
    (pocketsphinx_request_dispatch wActive
        { wReqRecognize with reqId := 3 } wEnvOk).1 = wActive ∧
    sends (pocketsphinx_request_dispatch wActive
        { wReqRecognize with reqId := 3 } wEnvOk).2 =
      [.resp { reqId := 3, status := .methodFailed,
               reqState := .complete }] ∧
    WF (initialState "ch") :=
  ⟨(at_most_one_recognize_inprogress.1 wActive
      { wReqRecognize with reqId := 3 } wEnvOk wReqRecognize
      (fun _ => rfl) rfl rfl).1,
   (at_most_one_recognize_inprogress.1 wActive
      { wReqRecognize with reqId := 3 } wEnvOk wReqRecognize
      (fun _ => rfl) rfl rfl).2,
   at_most_one_recognize_inprogress.2.2.2.2 "ch"⟩

/-- C2: every dispatched MRCP request is answered by exactly one response:
any request other than a STOP racing an in-progress recognition yields
exactly one response during its dispatch; a STOP dispatched while a
recognition is in-progress yields none then, but its response is stored
and the subsequent completion-event processing sends it exactly once. -/
theorem one_response_per_request (s : RecogState) (req : Request)
    (env : DispatchEnv) :
    (¬(req.method = .stop ∧ s.inprogress_recog.isSome = true) →
       respCount (pocketsphinx_request_dispatch s req env).2 req.reqId =
         1) ∧
    (req.method = .stop → s.inprogress_recog.isSome = true →
       respCount (pocketsphinx_request_dispatch s req env).2 req.reqId =
           0 ∧
       (pocketsphinx_request_dispatch s req env).1.stop_response =
         some (mrcp_response_create req)) ∧
    (∀ (ev : CompleteEvent) (hyp : Option String) (r : Response),
       s.inprogress_recog.isSome = true → s.stop_response = some r →
       s.close_requested = false →
       respCount (pocketsphinx_recognition_complete s ev hyp).acts
         r.reqId = 1) := by
  refine ⟨?_, ?_, ?_⟩
  · intro hns
    unfold pocketsphinx_request_dispatch
    cases hm : req.method
    case defineGrammar =>
      obtain ⟨hid, hcnt⟩ :=
        define_grammar_one_response s req (mrcp_response_create req) env
      dsimp only
      rw [mrcp_response_create_reqId] at hid hcnt
      by_cases hok :
          (pocketsphinx_define_grammar s req
            (mrcp_response_create req) env).ok = true
      · rw [hok] at hcnt
        rw [if_neg (by simp [hok])]
        simpa using hcnt
      · have hok2 : (pocketsphinx_define_grammar s req
            (mrcp_response_create req) env).ok = false := by
          cases hb : (pocketsphinx_define_grammar s req
              (mrcp_response_create req) env).ok
          · rfl
          · exact absurd hb hok
        rw [hok2] at hcnt
        rw [if_pos hok2, respCount_append]
        have h1 : respCount
            [Action.send (SentMsg.resp
              (pocketsphinx_define_grammar s req
                (mrcp_response_create req) env).resp)] req.reqId = 1 := by
          simp [respCount, sends, isRespFor, hid]
        simp at hcnt
        simp [hcnt, h1]
    case recognize =>
      obtain ⟨hid, hcnt⟩ :=
        recognize_one_response s req (mrcp_response_create req) env
      dsimp only
      rw [mrcp_response_create_reqId] at hid hcnt
      by_cases hok :
          (pocketsphinx_recognize s req
            (mrcp_response_create req) env).ok = true
      · rw [hok] at hcnt
        rw [if_neg (by simp [hok])]
        simpa using hcnt
      · have hok2 : (pocketsphinx_recognize s req
            (mrcp_response_create req) env).ok = false := by
          cases hb : (pocketsphinx_recognize s req
              (mrcp_response_create req) env).ok
          · rfl
          · exact absurd hb hok
        rw [hok2] at hcnt
        rw [if_pos hok2, respCount_append]
        have h1 : respCount
            [Action.send (SentMsg.resp
              (pocketsphinx_recognize s req
                (mrcp_response_create req) env).resp)] req.reqId = 1 := by
          simp [respCount, sends, isRespFor, hid]
        simp at hcnt
        simp [hcnt, h1]
    case stop =>
      simp only [hm, true_and] at hns
      have hi : s.inprogress_recog.isSome = false := by
        cases hb : s.inprogress_recog.isSome
        · rfl
        · exact absurd hb hns
      dsimp only
      simp [pocketsphinx_stop, hi, respCount, sends, isRespFor,
            mrcp_response_create]
    all_goals dsimp only
    all_goals simp [respCount, sends, isRespFor, mrcp_response_create]
  · intro hm hi
    constructor
    · simp [pocketsphinx_request_dispatch, pocketsphinx_stop, hm, hi,
            respCount, sends]
    · simp [pocketsphinx_request_dispatch, pocketsphinx_stop, hm, hi]
  · intro ev hyp r hi hr hcl
    have hnn : s.inprogress_recog ≠ none := Option.isSome_iff_ne_none.mp hi
    simp [pocketsphinx_recognition_complete, hnn, hr, hcl, respCount,
          sends, isRespFor]

theorem one_response_per_request_witness :
    respCount (pocketsphinx_request_dispatch wReady wReqRecognize
        wEnvOk).2 1 = 1 ∧
    respCount (pocketsphinx_request_dispatch wActive wReqStop wEnvOk).2
        2 = 0 ∧
    (pocketsphinx_request_dispatch wActive wReqStop wEnvOk).1.stop_response =
      some (mrcp_response_create wReqStop) ∧
    respCount (pocketsphinx_recognition_complete
        { wActive with stop_response := some (mrcp_response_create wReqStop) }
        wEvSuccess none).acts 2 = 1 :=
  ⟨(one_response_per_request wReady wReqRecognize wEnvOk).1
      (fun h => absurd h.1 (by decide)),
   ((one_response_per_request wActive wReqStop wEnvOk).2.1 rfl rfl).1,
   ((one_response_per_request wActive wReqStop wEnvOk).2.1 rfl rfl).2,
   (one_response_per_request
      { wActive with stop_response := some (mrcp_response_create wReqStop) }
      wReqStop wEnvOk).2.2 wEvSuccess none (mrcp_response_create wReqStop)
      rfl rfl rfl⟩

end PS
